import Mathlib

/-!
Verification of the kubehelp diagnostic pipeline: a shallow embedding of the
cluster-snapshot collector (`internal/k8s/aggregator.go`), the report compiler
(`internal/llm`, `BuildDiagnosticPrompt`), the Vertex AI backend constructor
(`internal/llm/vertexai.go`) and the server orchestration (`diagnoseHandler`,
`createLLMProvider`), together with theorems settling the specification's
claims about them.

Modelling conventions:
* Go strings are modelled as Lean `String` (sequences of characters); Go's
  byte-level `len`/slicing on report text is modelled at character granularity.
* `time.Time` values and `time.Duration` are modelled as `Int` nanoseconds.
* Go's `fmt.Sprintf("%d", n)` decimal rendering is modelled by `intToString`.
* Fallible calls are modelled by `Except String`; the outcome of each external
  call (cluster listings, credential discovery, the LLM request) is an input of
  the model, and the sequence of external calls actually performed is returned
  as an explicit trace.
-/

/-- Sequential concatenation of a list of strings (the incremental
`strings.Builder` writes of the Go code). -/
def strConcat : List String → String
  | [] => ""
  | s :: rest => s ++ strConcat rest

/-- `strings.Join` with separator `", "` as used for the focused-workload
header line. -/
def strJoinComma : List String → String
  | [] => ""
  | [s] => s
  | s :: rest => s ++ ", " ++ strJoinComma rest

/-- One decimal digit character (`0 ≤ d ≤ 9`; callers only pass `n % 10`). -/
def digitChar (d : Nat) : Char :=
  if d = 0 then '0' else if d = 1 then '1' else if d = 2 then '2'
  else if d = 3 then '3' else if d = 4 then '4' else if d = 5 then '5'
  else if d = 6 then '6' else if d = 7 then '7' else if d = 8 then '8' else '9'

/-- Decimal digit accumulation, structurally recursive on a fuel bound so
that it evaluates by kernel reduction; any `fuel > n` is sufficient. -/
def natDigitsAux : Nat → Nat → List Char
  | 0, _ => []
  | fuel + 1, n =>
    if n < 10 then [digitChar n]
    else natDigitsAux fuel (n / 10) ++ [digitChar (n % 10)]

/-- Decimal digit list of a natural number, most significant first. -/
def natDigits (n : Nat) : List Char :=
  natDigitsAux (n + 1) n

/-- Decimal rendering of a natural number. -/
def natToString (n : Nat) : String :=
  String.mk (natDigits n)

/-- Decimal rendering of an integer (Go's `fmt.Sprintf("%d", n)`). -/
def intToString (n : Int) : String :=
  if n < 0 then "-" ++ natToString (-n).toNat else natToString n.toNat

/-! ## Data model (`internal/k8s/aggregator.go` type declarations) -/

/-- `ContainerStatus` record of the snapshot (aggregator.go). -/
structure ContainerStatus where
  name : String
  ready : Bool
  restartCount : Int
  state : String
  reason : String
  message : String
  image : String
deriving DecidableEq

/-- `PodCondition` record of the snapshot (aggregator.go). -/
structure PodCondition where
  condType : String
  status : String
  reason : String
  message : String
deriving DecidableEq

/-- `PodInfo` record of the snapshot (aggregator.go). -/
structure PodInfo where
  name : String
  phase : String
  ready : String
  restarts : Int
  age : Int
  message : String
  containerStatuses : List ContainerStatus
  nodeName : String
  conditions : List PodCondition
deriving DecidableEq

/-- `EventInfo` record of the snapshot (aggregator.go). -/
structure EventInfo where
  eventType : String
  reason : String
  message : String
  involvedObject : String
  firstTimestamp : Int
  lastTimestamp : Int
  count : Int
deriving DecidableEq

/-- `DiagnosticData`: the full diagnostic snapshot (aggregator.go).
`ns` is the Go field `Namespace`. -/
structure DiagnosticData where
  ns : String
  workloads : List String
  pods : List PodInfo
  events : List EventInfo
  collectedAt : Int
  contextName : String
deriving DecidableEq

/-! ## Cluster-side input records (the `corev1` values read by collection) -/

/-- `corev1.ContainerStateWaiting` (reason and message fields read). -/
structure StateWaiting where
  reason : String
  message : String
deriving DecidableEq

/-- `corev1.ContainerStateTerminated` (reason and message fields read). -/
structure StateTerminated where
  reason : String
  message : String
deriving DecidableEq

/-- The fields of `corev1.ContainerStatus` read by `extractPodInfo`.
`stateRunning` records whether the `State.Running` pointer is set. -/
structure K8sContainerStatus where
  name : String
  ready : Bool
  restartCount : Int
  image : String
  stateRunning : Bool
  stateWaiting : Option StateWaiting
  stateTerminated : Option StateTerminated
deriving DecidableEq

/-- The fields of `corev1.PodCondition` read by `extractPodInfo`.
`status` holds the string of the condition status ("True"/"False"/"Unknown"). -/
structure K8sPodCondition where
  condType : String
  status : String
  reason : String
  message : String
deriving DecidableEq

/-- The fields of `corev1.Pod` read by `extractPodInfo`. -/
structure K8sPod where
  name : String
  phase : String
  nodeName : String
  creationTimestamp : Int
  containerStatuses : List K8sContainerStatus
  conditions : List K8sPodCondition
deriving DecidableEq

/-- The fields of `corev1.Event` read by `collectEvents`. -/
structure K8sEvent where
  eventType : String
  reason : String
  message : String
  involvedObjectKind : String
  involvedObjectName : String
  firstTimestamp : Int
  lastTimestamp : Int
  count : Int
deriving DecidableEq

/-! ## Snapshot collection (`internal/k8s/aggregator.go`) -/

/-- `matchesWorkload` (aggregator.go:235): loop over the workload names,
returning true when `len(pod.Name) >= len(workload) &&
pod.Name[:len(workload)] == workload`. -/
def matchesWorkload (pod : K8sPod) : List String → Bool
  | [] => false
  | w :: rest =>
    if w.data.length ≤ pod.name.data.length ∧ pod.name.data.take w.data.length = w.data
    then true
    else matchesWorkload pod rest

/-- The `ContainerStatus` record built for one `corev1.ContainerStatus` inside
the loop of `extractPodInfo` (aggregator.go:149-176): base fields plus the
running/waiting/terminated state chain. -/
def convertContainerStatus (cs : K8sContainerStatus) : ContainerStatus :=
  let base : ContainerStatus :=
    { name := cs.name, ready := cs.ready, restartCount := cs.restartCount,
      image := cs.image, state := "", reason := "", message := "" }
  if cs.stateRunning then { base with state := "Running" }
  else
    match cs.stateWaiting with
    | some w => { base with state := "Waiting", reason := w.reason, message := w.message }
    | none =>
      match cs.stateTerminated with
      | some t => { base with state := "Terminated", reason := t.reason, message := t.message }
      | none => base

/-- `extractPodInfo` (aggregator.go:136-194). The loop accumulators
(`readyCount`, `totalCount`, `totalRestarts`, the status list, the condition
list) are expressed as list counts/sums over the same sequence; `now` stands
for `time.Now()` so that `age = now - creationTimestamp`. -/
def extractPodInfo (now : Int) (pod : K8sPod) : PodInfo :=
  let readyCount := (pod.containerStatuses.filter fun cs => cs.ready).length
  let totalCount := pod.containerStatuses.length
  let totalRestarts := (pod.containerStatuses.map fun cs => cs.restartCount).sum
  { name := pod.name
    phase := pod.phase
    nodeName := pod.nodeName
    age := now - pod.creationTimestamp
    ready := natToString readyCount ++ "/" ++ natToString totalCount
    restarts := totalRestarts
    message := ""
    containerStatuses := pod.containerStatuses.map convertContainerStatus
    conditions :=
      (pod.conditions.filter fun c => c.status = "False" ∨ c.reason ≠ "").map
        fun c => { condType := c.condType, status := c.status,
                   reason := c.reason, message := c.message } }

/-- The pod loop of `collectPods` (aggregator.go:122-131): skip a pod when
workloads were requested and none matches, otherwise keep its extracted record. -/
def collectPods (now : Int) (workloads : List String) : List K8sPod → List PodInfo
  | [] => []
  | pod :: rest =>
    if workloads.length > 0 ∧ ¬ matchesWorkload pod workloads
    then collectPods now workloads rest
    else extractPodInfo now pod :: collectPods now workloads rest

/-- The `EventInfo` record built for one `corev1.Event`
(aggregator.go:221-229). -/
def eventInfoOf (e : K8sEvent) : EventInfo :=
  { eventType := e.eventType
    reason := e.reason
    message := e.message
    involvedObject := e.involvedObjectKind ++ "/" ++ e.involvedObjectName
    firstTimestamp := e.firstTimestamp
    lastTimestamp := e.lastTimestamp
    count := e.count }

/-- Nanoseconds in one hour (`time.Hour`). -/
def hourNs : Int := 3600000000000

/-- The event loop of `collectEvents` (aggregator.go:210-230): skip events
whose last timestamp is before the cutoff, then skip events that are neither
Warning nor Error. -/
def collectEventsLoop (cutoff : Int) : List K8sEvent → List EventInfo
  | [] => []
  | e :: rest =>
    if e.lastTimestamp < cutoff then collectEventsLoop cutoff rest
    else if e.eventType ≠ "Warning" ∧ e.eventType ≠ "Error" then collectEventsLoop cutoff rest
    else eventInfoOf e :: collectEventsLoop cutoff rest

/-- `collectEvents` (aggregator.go:196-233): the one-hour cutoff is computed
once, before the loop over the listed events. -/
def collectEvents (now : Int) (events : List K8sEvent) : List EventInfo :=
  collectEventsLoop (now - hourNs) events

/-- The external calls the pipeline can perform, recorded as a trace. -/
inductive Call
  | listPods
  | listEvents
  | findCredentials
  | createService
  | llmRequest
deriving DecidableEq

/-- Outcomes of the external calls made during one collection: the result of
`GetCurrentContext`, of the pod listing and of the event listing, plus the
collection clock (`time.Now()`). -/
structure ClusterWorld where
  contextResult : Except String String
  podListResult : Except String (List K8sPod)
  eventListResult : Except String (List K8sEvent)
  now : Int

/-- `CollectDiagnostics` (aggregator.go:78-106): best-effort context lookup,
then pod listing, then event listing; the first listing failure aborts the
collection. Returns the result together with the trace of listing calls
performed. -/
def CollectDiagnostics (w : ClusterWorld) (ns : String) (workloads : List String) :
    Except String DiagnosticData × List Call :=
  let ctxName := match w.contextResult with
    | .ok c => c
    | .error _ => ""
  match w.podListResult with
  | .error e => (.error ("failed to collect pods: " ++ e), [.listPods])
  | .ok podItems =>
    match w.eventListResult with
    | .error e => (.error ("failed to collect events: " ++ e), [.listPods, .listEvents])
    | .ok eventItems =>
      (.ok { ns := ns
             workloads := workloads
             pods := collectPods w.now workloads podItems
             events := collectEvents w.now eventItems
             collectedAt := w.now
             contextName := ctxName },
       [.listPods, .listEvents])

/-! ## Report compilation (`BuildDiagnosticPrompt`, internal/llm prompt builder) -/

/-- Rendering of a Go `bool` by `fmt.Sprintf("%v", b)`. -/
def boolToString (b : Bool) : String :=
  if b then "true" else "false"

/-- Rendering of the collection timestamp. The RFC3339 layout of
`time.Time.Format` is abstracted: timestamps are opaque integers in this
model and their textual form plays no role in any claim. -/
def formatRFC3339 (t : Int) : String :=
  intToString t

/-- `formatDuration` (prompt builder): seconds under a minute, minutes under
an hour, hours under a day, else days. The Go float conversions
(`int(d.Seconds())` etc.) are modelled as integer division on nanoseconds,
which is exact truncation for the non-negative durations of interest. -/
def formatDuration (d : Int) : String :=
  if d < 60000000000 then intToString (d / 1000000000) ++ "s"
  else if d < 3600000000000 then intToString (d / 60000000000) ++ "m"
  else if d < 86400000000000 then intToString (d / 3600000000000) ++ "h"
  else intToString (d / 86400000000000) ++ "d"

/-- Header block of the report (prompt builder lines 14-21). -/
def reportHeader (data : DiagnosticData) : String :=
  "# Kubernetes Diagnostic Report\n\n" ++
  "**Cluster Context:** " ++ data.contextName ++ "\n" ++
  "**Namespace:** " ++ data.ns ++ "\n" ++
  "**Collection Time:** " ++ formatRFC3339 data.collectedAt ++ "\n\n" ++
  (if data.workloads.length > 0
   then "**Focused Workloads:** " ++ strJoinComma data.workloads ++ "\n\n"
   else "")

/-- One row of the pod status summary table (prompt builder lines 30-34). -/
def podRow (p : PodInfo) : String :=
  "| " ++ p.name ++ " | " ++ p.phase ++ " | " ++ p.ready ++ " | " ++
  intToString p.restarts ++ " | " ++ formatDuration p.age ++ " | " ++
  p.nodeName ++ " |\n"

/-- The "Pod Status Summary" section (prompt builder lines 24-36). -/
def podSummarySection (pods : List PodInfo) : String :=
  "## Pod Status Summary\n\n" ++
  (if pods.isEmpty then "No pods found in this namespace.\n\n"
   else "| Pod Name | Phase | Ready | Restarts | Age | Node |\n" ++
        "|----------|-------|-------|----------|-----|------|\n" ++
        strConcat (pods.map podRow) ++ "\n")

/-- Does the pod have a container with an issue (prompt builder lines 46-52):
some container not ready, or not in Running state, or restarted. -/
def podHasIssues (p : PodInfo) : Bool :=
  p.containerStatuses.any fun cs =>
    ¬ cs.ready ∨ cs.state ≠ "Running" ∨ cs.restartCount > 0

/-- The per-container block of a detail section (prompt builder lines 60-71). -/
def csBlock (cs : ContainerStatus) : String :=
  "**Container:** " ++ cs.name ++ "\n" ++
  "- Image: " ++ cs.image ++ "\n" ++
  "- State: " ++ cs.state ++ "\n" ++
  "- Ready: " ++ boolToString cs.ready ++ "\n" ++
  "- Restart Count: " ++ intToString cs.restartCount ++ "\n" ++
  (if cs.reason ≠ "" then "- Reason: " ++ cs.reason ++ "\n" else "") ++
  (if cs.message ≠ "" then "- Message: " ++ cs.message ++ "\n" else "") ++
  "\n"

/-- One pod-condition line of a detail section (prompt builder lines 77-86). -/
def condLine (c : PodCondition) : String :=
  "- " ++ c.condType ++ ": " ++ c.status ++
  (if c.reason ≠ "" then " (Reason: " ++ c.reason ++ ")" else "") ++
  (if c.message ≠ "" then " - " ++ c.message else "") ++
  "\n"

/-- The pod-conditions block of a detail section (prompt builder lines 75-88). -/
def condBlock (p : PodInfo) : String :=
  if p.conditions.isEmpty then ""
  else "**Pod Conditions:**\n" ++ strConcat (p.conditions.map condLine) ++ "\n"

/-- The full detail section printed for one pod once the emission checks have
passed (prompt builder lines 58-88). -/
def podDetailBlock (p : PodInfo) : String :=
  "### Pod: " ++ p.name ++ "\n\n" ++
  strConcat (p.containerStatuses.map csBlock) ++
  condBlock p

/-- What the "Container Details" loop contributes for one pod (prompt builder
lines 40-89): nothing when the pod has no container statuses; nothing when it
has no issues and no retained conditions; otherwise its detail section. -/
def containerDetailsEntry (p : PodInfo) : String :=
  if p.containerStatuses.isEmpty then ""
  else if ¬ podHasIssues p ∧ p.conditions.isEmpty then ""
  else podDetailBlock p

/-- The "Container Details" section (prompt builder lines 39-89). -/
def containerDetailsSection (pods : List PodInfo) : String :=
  "## Container Details\n\n" ++ strConcat (pods.map containerDetailsEntry)

/-- Event-message truncation (prompt builder lines 100-103): messages longer
than 80 characters are cut to their first 77 characters plus "...". -/
def truncateMessage (msg : String) : String :=
  if msg.data.length > 80 then String.mk (msg.data.take 77) ++ "..." else msg

/-- One row of the recent-events table (prompt builder lines 104-105). -/
def eventRow (e : EventInfo) : String :=
  "| " ++ e.eventType ++ " | " ++ e.reason ++ " | " ++ e.involvedObject ++
  " | " ++ intToString e.count ++ " | " ++ truncateMessage e.message ++ " |\n"

/-- The "Recent Events (Last Hour)" section (prompt builder lines 92-108). -/
def eventsSection (events : List EventInfo) : String :=
  "## Recent Events (Last Hour)\n\n" ++
  (if events.isEmpty then "No warning or error events in the last hour.\n\n"
   else "| Type | Reason | Object | Count | Message |\n" ++
        "|------|--------|--------|-------|----------|\n" ++
        strConcat (events.map eventRow) ++ "\n")

/-- The fixed closing instruction block (prompt builder lines 111-118). -/
def analysisRequestBlock : String :=
  "## Analysis Request\n\n" ++
  "Please analyze the above diagnostic data and provide:\n\n" ++
  "1. **Summary of Issues**: Identify the main problems affecting this namespace\n" ++
  "2. **Root Cause Analysis**: Explain the likely root causes\n" ++
  "3. **Remediation Steps**: Provide specific, actionable steps to resolve the issues\n" ++
  "4. **kubectl Commands**: Include relevant kubectl commands that might help\n" ++
  "5. **Prevention**: Suggest how to prevent similar issues in the future\n\n" ++
  "Focus on the most critical issues first.\n"

/-- `BuildDiagnosticPrompt`: the report is the concatenation of the header,
the pod summary, the container details, the recent events, and the fixed
analysis request, in this order. -/
def BuildDiagnosticPrompt (data : DiagnosticData) : String :=
  reportHeader data ++
  podSummarySection data.pods ++
  containerDetailsSection data.pods ++
  eventsSection data.events ++
  analysisRequestBlock

/-! ## Backend construction (`internal/llm`) and server orchestration -/

/-- `VertexAIProvider` (vertexai.go): configuration retained after a
successful construction (the service handle itself carries no model state). -/
structure VertexAIProvider where
  projectID : String
  location : String
  model : String
deriving DecidableEq

/-- Outcomes of the two Google-library calls made by the Vertex AI
constructor: ambient-credential discovery (`google.FindDefaultCredentials`)
and service creation (`aiplatform.NewService`). -/
structure GoogleEnv where
  credsResult : Except String Unit
  serviceResult : Except String Unit

/-- `NewVertexAIProvider` (vertexai.go:23-56): reject an empty project ID
before anything else; default location and model; then discover ambient
credentials and create the service. The trace records which Google-library
calls were reached. -/
def NewVertexAIProvider (g : GoogleEnv) (projectID location model : String) :
    Except String VertexAIProvider × List Call :=
  if projectID = "" then
    (.error "project ID not specified and could not be determined from gcloud config", [])
  else
    let location := if location = "" then "us-central1" else location
    let model := if model = "" then "gemini-pro" else model
    match g.credsResult with
    | .error e =>
      (.error ("failed to find default credentials: " ++ e ++
               " (run 'gcloud auth application-default login')"),
       [.findCredentials])
    | .ok _ =>
      match g.serviceResult with
      | .error e =>
        (.error ("failed to create Vertex AI service: " ++ e),
         [.findCredentials, .createService])
      | .ok _ =>
        (.ok { projectID := projectID, location := location, model := model },
         [.findCredentials, .createService])

/-- `NewVertexAIProviderFromEnv` (vertexai.go:104-124): resolve the project
ID from three environment variables in order, default location and model,
then delegate to `NewVertexAIProvider`. -/
def NewVertexAIProviderFromEnv (env : String → String) (g : GoogleEnv) :
    Except String VertexAIProvider × List Call :=
  let p1 := env "VERTEX_AI_PROJECT_ID"
  let p2 := if p1 = "" then env "GCP_PROJECT" else p1
  let projectID := if p2 = "" then env "GOOGLE_CLOUD_PROJECT" else p2
  let location := env "VERTEX_AI_LOCATION"
  let location := if location = "" then "us-central1" else location
  let model := env "VERTEX_AI_MODEL"
  let model := if model = "" then "gemini-pro" else model
  NewVertexAIProvider g projectID location model

/-- The provider value produced by `createLLMProvider` (server handler file). -/
inductive Provider
  | ollama (model baseURL : String)
  | gemini (apiKey model : String)
  | openai (apiKey model : String)
  | vertexai (p : VertexAIProvider)
deriving DecidableEq

/-- `getEnv` of the server handler file: environment value, or the fallback
when unset/empty. -/
def getEnvOr (env : String → String) (key fallback : String) : String :=
  if env key ≠ "" then env key else fallback

/-- `createLLMProvider` (server handler file, lines 98-130): the string
switch over the backend identifier. The trace is the Google-library calls of
the `vertexai` branch (the other branches perform no external call). -/
def createLLMProvider (env : String → String) (g : GoogleEnv)
    (providerName : String) : Except String Provider × List Call :=
  if providerName = "ollama" then
    (.ok (.ollama (getEnvOr env "OLLAMA_MODEL" "mistral")
                  (getEnvOr env "OLLAMA_BASE_URL" "http://localhost:11434")), [])
  else if providerName = "gemini" then
    let apiKey := getEnvOr env "GEMINI_API_KEY" ""
    if apiKey = "" then (.error "GEMINI_API_KEY environment variable not set", [])
    else (.ok (.gemini apiKey (getEnvOr env "GEMINI_MODEL" "gemini-pro")), [])
  else if providerName = "openai" then
    let apiKey := getEnvOr env "OPENAI_API_KEY" ""
    if apiKey = "" then (.error "OPENAI_API_KEY environment variable not set", [])
    else (.ok (.openai apiKey "gpt-4"), [])
  else if providerName = "vertexai" then
    match NewVertexAIProviderFromEnv env g with
    | (.error e, tr) => (.error ("Failed to create Vertex AI provider: " ++ e), tr)
    | (.ok p, tr) => (.ok (.vertexai p), tr)
  else
    (.error ("Unsupported LLM provider: " ++ providerName ++
             " (supported: ollama, gemini, openai, vertexai)"), [])

/-- The decoded `DiagnoseRequest` body of the server handler. -/
structure DiagnoseRequest where
  ns : String
  workloads : List String
  llmProvider : String
  reqContext : String

/-- Outcomes of the external calls one server invocation can perform:
Kubernetes client construction, the collection calls, the Google-library
calls, and the single LLM analysis request. -/
structure ServerWorld where
  clientResult : Except String Unit
  contextResult : Except String String
  podListResult : Except String (List K8sPod)
  eventListResult : Except String (List K8sEvent)
  now : Int
  env : String → String
  google : GoogleEnv
  analyzeResult : Except String String

/-- The outward result of one `/api/diagnose` invocation: an error message
with its HTTP status, or the analysis together with the snapshot. -/
inductive HandlerResult
  | errorResp (message : String) (status : Nat)
  | okResp (analysis : String) (data : DiagnosticData)
deriving DecidableEq

/-- `diagnoseHandler` (server handler file, lines 32-96): defaults, client
construction, collection, prompt compilation, backend resolution, then the
single analysis request. The trace records every external call performed, in
order. -/
def diagnoseHandler (w : ServerWorld) (req : DiagnoseRequest) :
    HandlerResult × List Call :=
  let ns := if req.ns = "" then "default" else req.ns
  let providerName := if req.llmProvider = "" then "ollama" else req.llmProvider
  match w.clientResult with
  | .error e => (.errorResp ("Failed to create Kubernetes client: " ++ e) 500, [])
  | .ok _ =>
    match CollectDiagnostics
        { contextResult := w.contextResult, podListResult := w.podListResult,
          eventListResult := w.eventListResult, now := w.now } ns req.workloads with
    | (.error e, tr) => (.errorResp ("Failed to collect diagnostics: " ++ e) 500, tr)
    | (.ok data, tr) =>
      let _prompt := BuildDiagnosticPrompt data
      match createLLMProvider w.env w.google providerName with
      | (.error e, tr2) => (.errorResp e 400, tr ++ tr2)
      | (.ok _p, tr2) =>
        match w.analyzeResult with
        | .error e =>
          (.errorResp ("LLM analysis failed: " ++ e) 500, tr ++ tr2 ++ [.llmRequest])
        | .ok analysis => (.okResp analysis data, tr ++ tr2 ++ [.llmRequest])

/-! ## String helper lemmas -/

theorem strData_append (a b : String) : (a ++ b).data = a.data ++ b.data := rfl

/-- `t` occurs as a contiguous substring of `s`. -/
def ContainsSubstr (s t : String) : Prop :=
  ∃ u v : List Char, s.data = u ++ t.data ++ v

theorem containsSubstr_refl (s : String) : ContainsSubstr s s :=
  ⟨[], [], by simp⟩

theorem containsSubstr_empty (s : String) : ContainsSubstr s "" :=
  ⟨s.data, [], by simp⟩

theorem containsSubstr_of_parts (a t b : String) :
    ContainsSubstr (a ++ t ++ b) t :=
  ⟨a.data, b.data, by simp [strData_append]⟩

theorem containsSubstr_append_left (s t x : String) (h : ContainsSubstr t x) :
    ContainsSubstr (s ++ t) x := by
  obtain ⟨u, v, hu⟩ := h
  exact ⟨s.data ++ u, v, by simp [strData_append, hu]⟩

theorem containsSubstr_append_right (s t x : String) (h : ContainsSubstr s x) :
    ContainsSubstr (s ++ t) x := by
  obtain ⟨u, v, hu⟩ := h
  exact ⟨u, v ++ t.data, by simp [strData_append, hu]⟩

theorem containsSubstr_trans (s t x : String)
    (h1 : ContainsSubstr s t) (h2 : ContainsSubstr t x) : ContainsSubstr s x := by
  obtain ⟨u, v, hu⟩ := h1
  obtain ⟨u2, v2, hu2⟩ := h2
  exact ⟨u ++ u2, v2 ++ v, by simp [hu, hu2]⟩

theorem strConcat_containsSubstr {α : Type} (f : α → String) {a : α} :
    ∀ {l : List α}, a ∈ l → ContainsSubstr (strConcat (l.map f)) (f a)
  | b :: rest, h => by
    rcases List.mem_cons.mp h with h1 | h2
    · subst h1
      exact containsSubstr_append_right _ _ _ (containsSubstr_refl _)
    · exact containsSubstr_append_left _ _ _ (strConcat_containsSubstr f h2)

/-- Number of newline characters of a string: the number of rows a table
body contributes to the report. -/
def lineCount (s : String) : Nat := s.data.count '\n'

theorem lineCount_append (a b : String) :
    lineCount (a ++ b) = lineCount a + lineCount b := by
  simp [lineCount, strData_append]

theorem digitChar_ne_newline (d : Nat) : digitChar d ≠ '\n' := by
  unfold digitChar
  repeat' split
  all_goals decide

theorem natDigitsAux_ne_newline : ∀ (fuel n : Nat), '\n' ∉ natDigitsAux fuel n
  | 0, _ => by simp [natDigitsAux]
  | fuel + 1, n => by
    unfold natDigitsAux
    split
    · intro hmem
      exact digitChar_ne_newline n (List.mem_singleton.mp hmem).symm
    · intro hmem
      rcases List.mem_append.mp hmem with h | h
      · exact natDigitsAux_ne_newline fuel (n / 10) h
      · exact digitChar_ne_newline (n % 10) (List.mem_singleton.mp h).symm

theorem natDigits_ne_newline (n : Nat) : '\n' ∉ natDigits n :=
  natDigitsAux_ne_newline (n + 1) n

theorem lineCount_natToString (n : Nat) : lineCount (natToString n) = 0 :=
  List.count_eq_zero.mpr (natDigits_ne_newline n)

theorem lineCount_intToString (n : Int) : lineCount (intToString n) = 0 := by
  unfold intToString
  split
  · rw [lineCount_append, lineCount_natToString]
    decide
  · exact lineCount_natToString _

theorem lineCount_formatDuration (d : Int) : lineCount (formatDuration d) = 0 := by
  unfold formatDuration
  repeat' split
  all_goals rw [lineCount_append, lineCount_intToString]
  all_goals decide

theorem lineCount_strConcat_rows {α : Type} (f : α → String) :
    ∀ (l : List α), (∀ a ∈ l, lineCount (f a) = 1) →
      lineCount (strConcat (l.map f)) = l.length
  | [], _ => rfl
  | a :: rest, h => by
    show lineCount (f a ++ strConcat (rest.map f)) = rest.length + 1
    rw [lineCount_append, h a (List.mem_cons_self a rest),
        lineCount_strConcat_rows f rest (fun b hb => h b (List.mem_cons_of_mem a hb))]
    omega

theorem lineCount_podRow (p : PodInfo)
    (h1 : lineCount p.name = 0) (h2 : lineCount p.phase = 0)
    (h3 : lineCount p.ready = 0) (h4 : lineCount p.nodeName = 0) :
    lineCount (podRow p) = 1 := by
  unfold podRow
  simp only [lineCount_append, h1, h2, h3, h4, lineCount_intToString,
    lineCount_formatDuration]
  decide

theorem lineCount_truncateMessage (m : String) (h : lineCount m = 0) :
    lineCount (truncateMessage m) = 0 := by
  have hnm : '\n' ∉ m.data := List.count_eq_zero.mp h
  unfold truncateMessage
  split
  · rw [lineCount_append]
    have htake : lineCount (String.mk (m.data.take 77)) = 0 :=
      List.count_eq_zero.mpr fun hm => hnm (List.take_subset 77 m.data hm)
    rw [htake]
    decide
  · exact h

theorem lineCount_eventRow (e : EventInfo)
    (h1 : lineCount e.eventType = 0) (h2 : lineCount e.reason = 0)
    (h3 : lineCount e.involvedObject = 0) (h4 : lineCount e.message = 0) :
    lineCount (eventRow e) = 1 := by
  unfold eventRow
  simp only [lineCount_append, h1, h2, h3, lineCount_intToString,
    lineCount_truncateMessage e.message h4]
  decide

/-! ## Characterizations of the collection functions -/

theorem matchesWorkload_eq_any (pod : K8sPod) (ws : List String) :
    matchesWorkload pod ws = ws.any fun w => decide (w.data <+: pod.name.data) := by
  induction ws with
  | nil => rfl
  | cons w rest ih =>
    unfold matchesWorkload
    by_cases h : w.data <+: pod.name.data
    · have hlen : w.data.length ≤ pod.name.data.length := h.length_le
      have htake : pod.name.data.take w.data.length = w.data :=
        (List.prefix_iff_eq_take.mp h).symm
      rw [if_pos ⟨hlen, htake⟩]
      simp [h]
    · have hcond : ¬ (w.data.length ≤ pod.name.data.length ∧
          pod.name.data.take w.data.length = w.data) := by
        rintro ⟨_, h2⟩
        exact h (List.prefix_iff_eq_take.mpr h2.symm)
      rw [if_neg hcond, ih]
      simp [h]

theorem collectPods_eq_filter_map (now : Int) (ws : List String) (pods : List K8sPod) :
    collectPods now ws pods =
      (pods.filter fun p => ws.isEmpty || matchesWorkload p ws).map (extractPodInfo now) := by
  induction pods with
  | nil => rfl
  | cons p rest ih =>
    unfold collectPods
    rcases ws with _ | ⟨w, ws'⟩
    · rw [if_neg (by simp), ih, List.filter_cons]
      simp
    · by_cases hm : matchesWorkload p (w :: ws')
      · rw [if_neg (by simp [hm]), ih, List.filter_cons]
        simp [hm]
      · rw [if_pos ⟨by simp, by simp [hm]⟩, ih, List.filter_cons]
        simp [hm]

theorem collectEvents_eq_filter_map (now : Int) (events : List K8sEvent) :
    collectEvents now events =
      (events.filter fun e =>
        decide (now - hourNs ≤ e.lastTimestamp) &&
        (decide (e.eventType = "Warning") || decide (e.eventType = "Error"))).map
        eventInfoOf := by
  unfold collectEvents
  induction events with
  | nil => rfl
  | cons e rest ih =>
    unfold collectEventsLoop
    by_cases hlate : e.lastTimestamp < now - hourNs
    · rw [if_pos hlate, ih, List.filter_cons]
      have hfalse : (decide (now - hourNs ≤ e.lastTimestamp) &&
          (decide (e.eventType = "Warning") || decide (e.eventType = "Error"))) = false := by
        have : ¬ (now - hourNs ≤ e.lastTimestamp) := by omega
        simp [this]
      rw [hfalse]
      simp
    · rw [if_neg hlate]
      have hle : now - hourNs ≤ e.lastTimestamp := by omega
      by_cases htype : e.eventType ≠ "Warning" ∧ e.eventType ≠ "Error"
      · rw [if_pos htype, ih, List.filter_cons]
        have hfalse : (decide (now - hourNs ≤ e.lastTimestamp) &&
            (decide (e.eventType = "Warning") || decide (e.eventType = "Error"))) = false := by
          simp [htype.1, htype.2]
        rw [hfalse]
        simp
      · rw [if_neg htype, ih, List.filter_cons]
        have htrue : (decide (now - hourNs ≤ e.lastTimestamp) &&
            (decide (e.eventType = "Warning") || decide (e.eventType = "Error"))) = true := by
          have h2 : e.eventType = "Warning" ∨ e.eventType = "Error" := by tauto
          rcases h2 with h | h <;> simp [hle, h]
        rw [htrue]
        simp

/-! ## Report containment lemmas -/

theorem report_contains_detailsEntry (data : DiagnosticData) {p : PodInfo}
    (hp : p ∈ data.pods) :
    ContainsSubstr (BuildDiagnosticPrompt data) (containerDetailsEntry p) := by
  unfold BuildDiagnosticPrompt containerDetailsSection
  apply containsSubstr_append_right
  apply containsSubstr_append_right
  apply containsSubstr_append_left
  apply containsSubstr_append_left
  exact strConcat_containsSubstr containerDetailsEntry hp

theorem podDetailBlock_contains_csBlock {p : PodInfo} {cs : ContainerStatus}
    (hcs : cs ∈ p.containerStatuses) :
    ContainsSubstr (podDetailBlock p) (csBlock cs) := by
  unfold podDetailBlock
  apply containsSubstr_append_right
  apply containsSubstr_append_left
  exact strConcat_containsSubstr csBlock hcs

theorem csBlock_contains_reason (cs : ContainerStatus) :
    ContainsSubstr (csBlock cs) cs.reason := by
  by_cases h : cs.reason = ""
  · rw [h]
    exact containsSubstr_empty _
  · unfold csBlock
    apply containsSubstr_append_right
    apply containsSubstr_append_right
    apply containsSubstr_append_left
    rw [if_pos h]
    exact containsSubstr_of_parts "- Reason: " cs.reason "\n"

theorem csBlock_contains_message (cs : ContainerStatus) :
    ContainsSubstr (csBlock cs) cs.message := by
  by_cases h : cs.message = ""
  · rw [h]
    exact containsSubstr_empty _
  · unfold csBlock
    apply containsSubstr_append_right
    apply containsSubstr_append_left
    rw [if_pos h]
    exact containsSubstr_of_parts "- Message: " cs.message "\n"

theorem report_contains_eventRow (data : DiagnosticData) {e : EventInfo}
    (he : e ∈ data.events) :
    ContainsSubstr (BuildDiagnosticPrompt data) (eventRow e) := by
  have hne : ¬ data.events.isEmpty = true := by
    cases hl : data.events with
    | nil => rw [hl] at he; cases he
    | cons a l => simp
  unfold BuildDiagnosticPrompt eventsSection
  apply containsSubstr_append_right
  apply containsSubstr_append_left
  apply containsSubstr_append_left
  rw [if_neg hne]
  apply containsSubstr_append_right
  apply containsSubstr_append_left
  exact strConcat_containsSubstr eventRow he

theorem eventRow_contains_message (e : EventInfo) :
    ContainsSubstr (eventRow e) (truncateMessage e.message) := by
  unfold eventRow
  apply containsSubstr_append_right
  apply containsSubstr_append_left
  exact containsSubstr_refl _

theorem podDetailBlock_ne_empty (p : PodInfo) : podDetailBlock p ≠ "" := by
  intro h
  have hd : (podDetailBlock p).data = ([] : List Char) := by rw [h]
  unfold podDetailBlock at hd
  simp only [strData_append, List.append_assoc, List.append_eq_nil] at hd
  exact (by decide : ("### Pod: " : String).data ≠ []) hd.1

theorem containerDetailsEntry_of_waiting {p : PodInfo} {cs : ContainerStatus}
    (hcs : cs ∈ p.containerStatuses) (hw : cs.state = "Waiting") :
    containerDetailsEntry p = podDetailBlock p := by
  have hne : ¬ p.containerStatuses.isEmpty = true := by
    cases hl : p.containerStatuses with
    | nil => rw [hl] at hcs; cases hcs
    | cons a l => simp
  have hissues : podHasIssues p = true := by
    unfold podHasIssues
    refine List.any_eq_true.mpr ⟨cs, hcs, ?_⟩
    simp [hw]
  unfold containerDetailsEntry
  rw [if_neg hne, if_neg (fun hcond => hcond.1 hissues)]

/-- The emission condition of the "Container Details" loop, characterized:
a pod contributes a (non-empty) detail section exactly when it has at least
one container status and either a container issue or a retained condition. -/
theorem containerDetailsEntry_spec (p : PodInfo) :
    containerDetailsEntry p ≠ "" ↔
      (p.containerStatuses ≠ [] ∧ (podHasIssues p = true ∨ p.conditions ≠ [])) := by
  unfold containerDetailsEntry
  by_cases h1 : p.containerStatuses.isEmpty
  · rw [if_pos h1]
    exact iff_of_false (by simp) (fun hc => hc.1 (List.isEmpty_iff.mp h1))
  · rw [if_neg h1]
    by_cases h2 : ¬ podHasIssues p = true ∧ p.conditions.isEmpty = true
    · rw [if_pos h2]
      refine iff_of_false (by simp) ?_
      rintro ⟨-, h3 | h3⟩
      · exact h2.1 h3
      · exact h3 (List.isEmpty_iff.mp h2.2)
    · rw [if_neg h2]
      have hrhs : p.containerStatuses ≠ [] ∧ (podHasIssues p = true ∨ p.conditions ≠ []) := by
        constructor
        · intro hnil
          exact h1 (by simp [hnil])
        · by_cases hi : podHasIssues p = true
          · exact Or.inl hi
          · right
            intro hcnil
            exact h2 ⟨hi, by simp [hcnil]⟩
      exact iff_of_true (podDetailBlock_ne_empty p) hrhs

/-! ## Claims -/

/-- A pod record with no container statuses but one retained condition:
exactly the shape `extractPodInfo` produces for an unscheduled pod whose
containers never started. -/
def c1pod : PodInfo :=
  { name := "web-0", phase := "Pending", ready := "0/0", restarts := 0, age := 0,
    message := "", containerStatuses := [], nodeName := "",
    conditions := [{ condType := "PodScheduled", status := "False",
                     reason := "Unschedulable", message := "0/3 nodes are available" }] }

/-- C1 counterexample: `c1pod` has a retained condition, so the claim's
emission condition holds, yet the report's "Container Details" loop skips it
(the loop `continue`s on an empty container-status list before conditions are
considered), so no detail section is emitted for it. -/
theorem c1_counterexample :
    c1pod.conditions ≠ [] ∧
    containerDetailsEntry c1pod = "" ∧
    containerDetailsSection [c1pod] = "## Container Details\n\n" := by
  refine ⟨by decide, by decide, ?_⟩
  have h : containerDetailsEntry c1pod = "" := by decide
  show "## Container Details\n\n" ++ (containerDetailsEntry c1pod ++ "") =
    "## Container Details\n\n"
  rw [h]
  decide

/-- C1 (amended): a detail section is emitted for an instance iff it has a
non-empty sub-unit sequence and (some sub-unit is not ready, or not in
running state, or has restarted, or the instance has a retained condition);
and an instance with a sub-unit in waiting state always produces a detail
section, and the compiled report contains that sub-unit's reason and message
verbatim. -/
theorem c1_detail_sections :
    (∀ p : PodInfo,
      containerDetailsEntry p ≠ "" ↔
        (p.containerStatuses ≠ [] ∧ (podHasIssues p = true ∨ p.conditions ≠ []))) ∧
    (∀ (data : DiagnosticData) (p : PodInfo) (cs : ContainerStatus),
      p ∈ data.pods → cs ∈ p.containerStatuses → cs.state = "Waiting" →
        containerDetailsEntry p ≠ "" ∧
        ContainsSubstr (BuildDiagnosticPrompt data) cs.reason ∧
        ContainsSubstr (BuildDiagnosticPrompt data) cs.message) := by
  refine ⟨containerDetailsEntry_spec, ?_⟩
  intro data p cs hp hcs hw
  have hentry := containerDetailsEntry_of_waiting hcs hw
  have hrep : ContainsSubstr (BuildDiagnosticPrompt data) (podDetailBlock p) := by
    have h := report_contains_detailsEntry data hp
    rwa [hentry] at h
  have hblock : ContainsSubstr (BuildDiagnosticPrompt data) (csBlock cs) :=
    containsSubstr_trans _ _ _ hrep (podDetailBlock_contains_csBlock hcs)
  refine ⟨?_, ?_, ?_⟩
  · rw [hentry]
    exact podDetailBlock_ne_empty p
  · exact containsSubstr_trans _ _ _ hblock (csBlock_contains_reason cs)
  · exact containsSubstr_trans _ _ _ hblock (csBlock_contains_message cs)

/-- A container status in waiting state, as produced by collection for a
crash-looping container. -/
def c1csWaiting : ContainerStatus :=
  { name := "app", ready := false, restartCount := 3, state := "Waiting",
    reason := "CrashLoopBackOff", message := "back-off 5m0s restarting failed container",
    image := "nginx:1.25" }

/-- A pod record holding `c1csWaiting`. -/
def c1wpod : PodInfo :=
  { name := "api-1", phase := "Running", ready := "0/1", restarts := 3, age := 0,
    message := "", containerStatuses := [c1csWaiting], nodeName := "node-1",
    conditions := [] }

/-- A snapshot holding `c1wpod`. -/
def c1data : DiagnosticData :=
  { ns := "default", workloads := [], pods := [c1wpod], events := [],
    collectedAt := 0, contextName := "ctx" }

/-- Witness for C1 at a concrete waiting pod. -/
theorem c1_detail_sections_witness :
    containerDetailsEntry c1wpod ≠ "" ∧
    ContainsSubstr (BuildDiagnosticPrompt c1data) c1csWaiting.reason ∧
    ContainsSubstr (BuildDiagnosticPrompt c1data) c1csWaiting.message :=
  c1_detail_sections.2 c1data c1wpod c1csWaiting (by decide) (by decide) (by decide)

/-- A pod named "api-server-7f" (other fields immaterial). -/
def c4podA : K8sPod :=
  { name := "api-server-7f", phase := "Running", nodeName := "n1",
    creationTimestamp := 0, containerStatuses := [], conditions := [] }

/-- A pod named "worker-1" (other fields immaterial). -/
def c4podB : K8sPod :=
  { name := "worker-1", phase := "Running", nodeName := "n1",
    creationTimestamp := 0, containerStatuses := [], conditions := [] }

/-- C4: with a non-empty prefix list, collection retains a pod iff its name
starts with one of the prefixes (plain string-prefix match); with an empty
list every pod is retained; `"api-server-7f"` matches prefix `"api"` and
`"worker-1"` does not. -/
theorem c4_workload_filtering :
    (∀ (now : Int) (ws : List String) (pods : List K8sPod),
      collectPods now ws pods =
        (pods.filter fun p => ws.isEmpty || matchesWorkload p ws).map
          (extractPodInfo now)) ∧
    (∀ (pod : K8sPod) (ws : List String),
      matchesWorkload pod ws = true ↔ ∃ w ∈ ws, w.data <+: pod.name.data) ∧
    (∀ (now : Int) (pods : List K8sPod),
      collectPods now [] pods = pods.map (extractPodInfo now)) ∧
    matchesWorkload c4podA ["api"] = true ∧
    matchesWorkload c4podB ["api"] = false := by
  refine ⟨collectPods_eq_filter_map, ?_, ?_, by decide, by decide⟩
  · intro pod ws
    rw [matchesWorkload_eq_any pod ws, List.any_eq_true]
    constructor
    · rintro ⟨w, hw, hdec⟩
      exact ⟨w, hw, of_decide_eq_true hdec⟩
    · rintro ⟨w, hw, hpre⟩
      exact ⟨w, hw, decide_eq_true hpre⟩
  · intro now pods
    rw [collectPods_eq_filter_map]
    congr 1
    induction pods with
    | nil => rfl
    | cons p rest ih => simp [List.filter_cons, ih]

/-- C8: for every record produced by `extractPodInfo`, the ready fraction is
rendered as (number of ready sub-units)/(length of the record's sub-unit
sequence), the numerator never exceeds the denominator, and the restart count
is the sum of the sub-unit restart counts. -/
theorem c8_ready_fraction_invariant :
    ∀ (now : Int) (pod : K8sPod),
      (extractPodInfo now pod).ready =
        natToString ((extractPodInfo now pod).containerStatuses.filter
          (fun cs => cs.ready)).length ++ "/" ++
        natToString (extractPodInfo now pod).containerStatuses.length ∧
      ((extractPodInfo now pod).containerStatuses.filter
        (fun cs => cs.ready)).length ≤
        (extractPodInfo now pod).containerStatuses.length ∧
      (extractPodInfo now pod).restarts =
        ((extractPodInfo now pod).containerStatuses.map
          (fun cs => cs.restartCount)).sum := by
  intro now pod
  have hready : ∀ cs, (convertContainerStatus cs).ready = cs.ready := by
    intro cs
    unfold convertContainerStatus
    repeat' split
    all_goals rfl
  have hrc : ∀ cs, (convertContainerStatus cs).restartCount = cs.restartCount := by
    intro cs
    unfold convertContainerStatus
    repeat' split
    all_goals rfl
  have hc : ((pod.containerStatuses.map convertContainerStatus).filter
      fun cs => cs.ready).length =
      (pod.containerStatuses.filter fun cs => cs.ready).length := by
    rw [← List.countP_eq_length_filter, ← List.countP_eq_length_filter,
        List.countP_map]
    exact List.countP_congr fun a _ => by simp [Function.comp, hready a]
  refine ⟨?_, ?_, ?_⟩
  · simp only [extractPodInfo, hc, List.length_map]
  · exact List.length_filter_le _ _
  · have hfun : ((fun cs : ContainerStatus => cs.restartCount) ∘ convertContainerStatus) =
        fun cs : K8sContainerStatus => cs.restartCount :=
      funext fun cs => hrc cs
    simp only [extractPodInfo, List.map_map, hfun]

/-- C10: a pod with an empty container-status list yields ready "0/0",
restart count 0 and an empty sub-unit sequence. -/
theorem c10_empty_container_list :
    ∀ (now : Int) (pod : K8sPod), pod.containerStatuses = [] →
      (extractPodInfo now pod).ready = "0/0" ∧
      (extractPodInfo now pod).restarts = 0 ∧
      (extractPodInfo now pod).containerStatuses = [] := by
  intro now pod h
  simp only [extractPodInfo, h]
  refine ⟨by decide, by decide, by decide⟩

/-- A pod with no container statuses. -/
def c10pod : K8sPod :=
  { name := "idle-0", phase := "Pending", nodeName := "",
    creationTimestamp := 0, containerStatuses := [], conditions := [] }

/-- Witness for C10 at a concrete pod. -/
theorem c10_empty_container_list_witness :
    (extractPodInfo 5 c10pod).ready = "0/0" ∧
    (extractPodInfo 5 c10pod).restarts = 0 ∧
    (extractPodInfo 5 c10pod).containerStatuses = [] :=
  c10_empty_container_list 5 c10pod rfl

/-- C6: ages are formatted as the largest whole unit — whole seconds under a
minute, whole minutes under an hour, whole hours under a day, else whole
days — and in particular 45s, 90s, 7200s and 172800s format as "45s", "1m",
"2h" and "2d". -/
theorem c6_age_formatting :
    (∀ s : Int, 0 ≤ s →
      formatDuration (s * 1000000000) =
        (if s < 60 then intToString s ++ "s"
         else if s < 3600 then intToString (s / 60) ++ "m"
         else if s < 86400 then intToString (s / 3600) ++ "h"
         else intToString (s / 86400) ++ "d")) ∧
    formatDuration 45000000000 = "45s" ∧
    formatDuration 90000000000 = "1m" ∧
    formatDuration 7200000000000 = "2h" ∧
    formatDuration 172800000000000 = "2d" := by
  refine ⟨?_, by decide, by decide, by decide, by decide⟩
  intro s hs
  unfold formatDuration
  by_cases h1 : s < 60
  · rw [if_pos (by omega : s * 1000000000 < 60000000000), if_pos h1]
    have he : s * 1000000000 / 1000000000 = s := by omega
    rw [he]
  · rw [if_neg (by omega : ¬ s * 1000000000 < 60000000000), if_neg h1]
    by_cases h2 : s < 3600
    · rw [if_pos (by omega : s * 1000000000 < 3600000000000), if_pos h2]
      have he : s * 1000000000 / 60000000000 = s / 60 := by omega
      rw [he]
    · rw [if_neg (by omega : ¬ s * 1000000000 < 3600000000000), if_neg h2]
      by_cases h3 : s < 86400
      · rw [if_pos (by omega : s * 1000000000 < 86400000000000), if_pos h3]
        have he : s * 1000000000 / 3600000000000 = s / 3600 := by omega
        rw [he]
      · rw [if_neg (by omega : ¬ s * 1000000000 < 86400000000000), if_neg h3]
        have he : s * 1000000000 / 86400000000000 = s / 86400 := by omega
        rw [he]

/-- Witness for C6 at 45 seconds. -/
theorem c6_age_formatting_witness :
    (0 : Int) ≤ 45 ∧
    formatDuration ((45 : Int) * 1000000000) =
      (if (45 : Int) < 60 then intToString 45 ++ "s"
       else if (45 : Int) < 3600 then intToString (45 / 60) ++ "m"
       else if (45 : Int) < 86400 then intToString (45 / 3600) ++ "h"
       else intToString ((45 : Int) / 86400) ++ "d") :=
  ⟨by decide, c6_age_formatting.1 45 (by decide)⟩

/-- C7: a listing failure fails the whole collection with the corresponding
wrapped error and no snapshot; when both listings succeed the full snapshot
is returned regardless of the outcome of the best-effort context lookup. -/
theorem c7_error_propagation :
    (∀ (w : ClusterWorld) (ns : String) (ws : List String) (e : String),
      w.podListResult = .error e →
      (CollectDiagnostics w ns ws).1 = .error ("failed to collect pods: " ++ e)) ∧
    (∀ (w : ClusterWorld) (ns : String) (ws : List String) (pl : List K8sPod)
        (e : String),
      w.podListResult = .ok pl → w.eventListResult = .error e →
      (CollectDiagnostics w ns ws).1 = .error ("failed to collect events: " ++ e)) ∧
    (∀ (w : ClusterWorld) (ns : String) (ws : List String) (pl : List K8sPod)
        (el : List K8sEvent),
      w.podListResult = .ok pl → w.eventListResult = .ok el →
      (CollectDiagnostics w ns ws).1 =
        .ok { ns := ns, workloads := ws, pods := collectPods w.now ws pl,
              events := collectEvents w.now el, collectedAt := w.now,
              contextName := match w.contextResult with
                | .ok c => c
                | .error _ => "" }) := by
  refine ⟨?_, ?_, ?_⟩
  · intro w ns ws e hp
    unfold CollectDiagnostics
    simp only [hp]
  · intro w ns ws pl e hp he
    unfold CollectDiagnostics
    simp only [hp, he]
  · intro w ns ws pl el hp he
    unfold CollectDiagnostics
    simp only [hp, he]

/-- A world whose pod listing fails. -/
def c7worldErr : ClusterWorld :=
  { contextResult := .error "no kubeconfig", podListResult := .error "connection refused",
    eventListResult := .ok [], now := 0 }

/-- A world whose listings succeed but whose context lookup fails. -/
def c7worldOk : ClusterWorld :=
  { contextResult := .error "no kubeconfig", podListResult := .ok [],
    eventListResult := .ok [], now := 7 }

/-- Witness for C7 at concrete worlds. -/
theorem c7_error_propagation_witness :
    (CollectDiagnostics c7worldErr "default" []).1 =
      .error ("failed to collect pods: " ++ "connection refused") ∧
    (CollectDiagnostics c7worldOk "default" []).1 =
      .ok { ns := "default", workloads := [], pods := collectPods 7 [] [],
            events := collectEvents 7 [], collectedAt := 7, contextName := "" } :=
  ⟨c7_error_propagation.1 c7worldErr "default" [] "connection refused" rfl,
   c7_error_propagation.2.2 c7worldOk "default" [] [] [] rfl rfl⟩

/-- C5: a rendered event message longer than 80 characters appears as its
first 77 characters followed by "..."; one of 80 characters or fewer appears
unmodified; and the rendered form of every snapshot event's message appears
in the compiled report. -/
theorem c5_message_truncation :
    (∀ m : String,
      (m.data.length > 80 →
        truncateMessage m = String.mk (m.data.take 77) ++ "...") ∧
      (m.data.length ≤ 80 → truncateMessage m = m)) ∧
    (∀ (data : DiagnosticData) (e : EventInfo), e ∈ data.events →
      ContainsSubstr (BuildDiagnosticPrompt data) (truncateMessage e.message)) := by
  constructor
  · intro m
    constructor
    · intro h
      unfold truncateMessage
      rw [if_pos h]
    · intro h
      unfold truncateMessage
      rw [if_neg (by omega)]
  · intro data e he
    exact containsSubstr_trans _ _ _ (report_contains_eventRow data he)
      (eventRow_contains_message e)

/-- An 81-character message. -/
def c5msg : String := String.mk (List.replicate 81 'a')

/-- An event carrying `c5msg`. -/
def c5event : EventInfo :=
  { eventType := "Warning", reason := "BackOff", message := c5msg,
    involvedObject := "Pod/api-1", firstTimestamp := 0, lastTimestamp := 0,
    count := 4 }

/-- A snapshot holding `c5event`. -/
def c5data : DiagnosticData :=
  { ns := "default", workloads := [], pods := [], events := [c5event],
    collectedAt := 0, contextName := "ctx" }

/-- Witness for C5 at a concrete long message. -/
theorem c5_message_truncation_witness :
    truncateMessage c5msg = String.mk (c5msg.data.take 77) ++ "..." ∧
    ContainsSubstr (BuildDiagnosticPrompt c5data) (truncateMessage c5event.message) :=
  ⟨(c5_message_truncation.1 c5msg).1 (by decide),
   c5_message_truncation.2 c5data c5event (by decide)⟩

/-- C3: the instance-summary table body has exactly one row per retained
instance, in snapshot order (stated as its newline count, under the
assumption that the rendered string fields are newline-free, which holds for
every name the cluster can produce); the collected event sequence is exactly
the listed events of type Warning or Error whose last-seen timestamp is at
least one hour before the collection clock, the cutoff being the single value
`now - hourNs`; and a successfully collected snapshot carries exactly these
pods and events. -/
theorem c3_summary_rows_and_event_window :
    (∀ (data : DiagnosticData),
      (∀ p ∈ data.pods, lineCount p.name = 0 ∧ lineCount p.phase = 0 ∧
        lineCount p.ready = 0 ∧ lineCount p.nodeName = 0) →
      lineCount (strConcat (data.pods.map podRow)) = data.pods.length ∧
      (data.pods ≠ [] →
        podSummarySection data.pods =
          "## Pod Status Summary\n\n" ++
          ("| Pod Name | Phase | Ready | Restarts | Age | Node |\n" ++
           "|----------|-------|-------|----------|-----|------|\n" ++
           strConcat (data.pods.map podRow) ++ "\n"))) ∧
    (∀ (now : Int) (events : List K8sEvent),
      collectEvents now events =
        (events.filter fun e =>
          decide (now - hourNs ≤ e.lastTimestamp) &&
          (decide (e.eventType = "Warning") || decide (e.eventType = "Error"))).map
          eventInfoOf) ∧
    (∀ (w : ClusterWorld) (ns : String) (ws : List String) (pl : List K8sPod)
        (el : List K8sEvent) (d : DiagnosticData),
      w.podListResult = .ok pl → w.eventListResult = .ok el →
      (CollectDiagnostics w ns ws).1 = .ok d →
      d.pods = collectPods w.now ws pl ∧ d.events = collectEvents w.now el) := by
  refine ⟨?_, collectEvents_eq_filter_map, ?_⟩
  · intro data h
    constructor
    · exact lineCount_strConcat_rows podRow data.pods fun p hp =>
        lineCount_podRow p (h p hp).1 (h p hp).2.1 (h p hp).2.2.1 (h p hp).2.2.2
    · intro hne
      unfold podSummarySection
      rw [if_neg (by simpa using hne)]
  · intro w ns ws pl el d hp he hok
    unfold CollectDiagnostics at hok
    simp only [hp, he] at hok
    rw [Except.ok.injEq] at hok
    subst hok
    exact ⟨rfl, rfl⟩

/-- A snapshot with two clean pods. -/
def c3data : DiagnosticData :=
  { ns := "default", workloads := [],
    pods := [c1wpod,
      { name := "db-0", phase := "Running", ready := "1/1", restarts := 0,
        age := 90000000000, message := "", containerStatuses := [],
        nodeName := "node-2", conditions := [] }],
    events := [], collectedAt := 0, contextName := "ctx" }

/-- Two listed events: one in-window warning, one stale warning. -/
def c3events : List K8sEvent :=
  [{ eventType := "Warning", reason := "BackOff", message := "m1",
     involvedObjectKind := "Pod", involvedObjectName := "api-1",
     firstTimestamp := 0, lastTimestamp := 7000000000000, count := 2 },
   { eventType := "Warning", reason := "Old", message := "m2",
     involvedObjectKind := "Pod", involvedObjectName := "api-2",
     firstTimestamp := 0, lastTimestamp := 1000000000000, count := 1 }]

/-- A world listing `c4podA` and `c3events`. -/
def c3world : ClusterWorld :=
  { contextResult := .ok "minikube", podListResult := .ok [c4podA],
    eventListResult := .ok c3events, now := 7200000000000 }

/-- The snapshot `c3world` collects. -/
def c3snap : DiagnosticData :=
  { ns := "default", workloads := [], pods := collectPods 7200000000000 [] [c4podA],
    events := collectEvents 7200000000000 c3events, collectedAt := 7200000000000,
    contextName := "minikube" }

/-- Witness for C3 at concrete data. -/
theorem c3_summary_rows_and_event_window_witness :
    lineCount (strConcat (c3data.pods.map podRow)) = c3data.pods.length ∧
    (c3snap.pods = collectPods c3world.now [] [c4podA] ∧
     c3snap.events = collectEvents c3world.now c3events) :=
  ⟨(c3_summary_rows_and_event_window.1 c3data (by decide)).1,
   c3_summary_rows_and_event_window.2.2 c3world "default" [] [c4podA] c3events
     c3snap rfl rfl rfl⟩

/-- A server world where every cluster call succeeds. -/
def c2world : ServerWorld :=
  { clientResult := .ok (), contextResult := .ok "minikube",
    podListResult := .ok [], eventListResult := .ok [], now := 0,
    env := fun _ => "", google := { credsResult := .ok (), serviceResult := .ok () },
    analyzeResult := .ok "analysis" }

/-- A request selecting the unrecognized backend identifier "foo". -/
def c2req : DiagnoseRequest :=
  { ns := "prod", workloads := [], llmProvider := "foo", reqContext := "" }

/-- C2 counterexample: with the unrecognized backend "foo" the invocation
does fail with the unsupported-backend error, but collection has already run:
the pod and event listing calls are in the performed-call trace before the
failure is returned. -/
theorem c2_counterexample :
    (diagnoseHandler c2world c2req).1 =
      .errorResp "Unsupported LLM provider: foo (supported: ollama, gemini, openai, vertexai)" 400 ∧
    Call.listPods ∈ (diagnoseHandler c2world c2req).2 ∧
    Call.listEvents ∈ (diagnoseHandler c2world c2req).2 := by
  refine ⟨rfl, ?_, ?_⟩ <;> decide

/-- C2 (amended): an unrecognized backend identifier fails the whole
invocation with the unsupported-backend error, but only after collection has
run — when the client and both listings succeed, the pod and event listing
calls are performed and are the entire external-call trace of the failed
invocation. -/
theorem c2_unsupported_backend :
    ∀ (w : ServerWorld) (req : DiagnoseRequest) (pl : List K8sPod)
      (el : List K8sEvent),
      (if req.llmProvider = "" then "ollama" else req.llmProvider) ≠ "ollama" →
      (if req.llmProvider = "" then "ollama" else req.llmProvider) ≠ "gemini" →
      (if req.llmProvider = "" then "ollama" else req.llmProvider) ≠ "openai" →
      (if req.llmProvider = "" then "ollama" else req.llmProvider) ≠ "vertexai" →
      w.clientResult = .ok () →
      w.podListResult = .ok pl → w.eventListResult = .ok el →
      diagnoseHandler w req =
        (.errorResp ("Unsupported LLM provider: " ++
            (if req.llmProvider = "" then "ollama" else req.llmProvider) ++
            " (supported: ollama, gemini, openai, vertexai)") 400,
         [.listPods, .listEvents]) := by
  intro w req pl el h1 h2 h3 h4 hc hp he
  unfold diagnoseHandler CollectDiagnostics createLLMProvider
  simp only [hc, hp, he, if_neg h1, if_neg h2, if_neg h3, if_neg h4,
    List.append_nil]

/-- Witness for C2 at the concrete world and request. -/
theorem c2_unsupported_backend_witness :
    diagnoseHandler c2world c2req =
      (.errorResp ("Unsupported LLM provider: " ++ "foo" ++
          " (supported: ollama, gemini, openai, vertexai)") 400,
       [.listPods, .listEvents]) :=
  c2_unsupported_backend c2world c2req [] [] (by decide) (by decide) (by decide)
    (by decide) rfl rfl rfl

/-- C9: constructing the Vertex AI backend with an empty project identifier
fails immediately with the project configuration error, before credential
discovery (empty trace); constructing it with a project but no ambient
credential fails with the credential configuration error after only the
discovery step; construction never performs a model request; and the
environment constructor with no resolvable project variable fails the same
way as the empty-project case. -/
theorem c9_vertex_config_errors :
    (∀ (g : GoogleEnv) (location model : String),
      NewVertexAIProvider g "" location model =
        (.error "project ID not specified and could not be determined from gcloud config",
         [])) ∧
    (∀ (g : GoogleEnv) (projectID location model msg : String),
      projectID ≠ "" → g.credsResult = .error msg →
      NewVertexAIProvider g projectID location model =
        (.error ("failed to find default credentials: " ++ msg ++
            " (run 'gcloud auth application-default login')"),
         [.findCredentials])) ∧
    (∀ (g : GoogleEnv) (projectID location model : String),
      Call.llmRequest ∉ (NewVertexAIProvider g projectID location model).2) ∧
    (∀ (env : String → String) (g : GoogleEnv),
      env "VERTEX_AI_PROJECT_ID" = "" → env "GCP_PROJECT" = "" →
      env "GOOGLE_CLOUD_PROJECT" = "" →
      NewVertexAIProviderFromEnv env g =
        (.error "project ID not specified and could not be determined from gcloud config",
         [])) := by
  refine ⟨?_, ?_, ?_, ?_⟩
  · intro g location model
    unfold NewVertexAIProvider
    rw [if_pos rfl]
  · intro g projectID location model msg hpid hcreds
    unfold NewVertexAIProvider
    rw [if_neg hpid]
    simp only [hcreds]
  · intro g projectID location model
    unfold NewVertexAIProvider
    by_cases hpid : projectID = ""
    · rw [if_pos hpid]
      decide
    · rw [if_neg hpid]
      rcases hc : g.credsResult with e | u
      · simp only [hc]
        decide
      · rcases hs : g.serviceResult with e | u <;> simp only [hc, hs] <;> decide
  · intro env g h1 h2 h3
    unfold NewVertexAIProviderFromEnv NewVertexAIProvider
    simp [h1, h2, h3]

/-- An environment with no project variables set. -/
def c9env : String → String := fun _ => ""

/-- A Google environment with no ambient credential. -/
def c9g : GoogleEnv :=
  { credsResult := .error "could not find default credentials",
    serviceResult := .ok () }

/-- Witness for C9 at a concrete environment. -/
theorem c9_vertex_config_errors_witness :
    NewVertexAIProvider c9g "my-proj" "" "" =
      (.error ("failed to find default credentials: " ++
          "could not find default credentials" ++
          " (run 'gcloud auth application-default login')"),
       [.findCredentials]) ∧
    NewVertexAIProviderFromEnv c9env c9g =
      (.error "project ID not specified and could not be determined from gcloud config",
       []) :=
  ⟨c9_vertex_config_errors.2.1 c9g "my-proj" "" "" "could not find default credentials"
     (by decide) rfl,
   c9_vertex_config_errors.2.2.2 c9env c9g rfl rfl rfl⟩
